import Mathlib

/-
Verification development for the metasv parsing/normalization core
(src/pindel_reader.py and src/metasv/breakdancer_reader.py).

The Python code is shallowly embedded: each class becomes a structure, each
method a Lean function.  Dynamic Python failures (IndexError on list access,
ValueError from int()/float(), AttributeError on missing attributes, TypeError
on call arity, KeyError on dict lookup) are modelled explicitly with an error
type, and every fallible operation returns `Except PyErr _`.  Python float
arithmetic in genotype derivation is idealized as exact rational arithmetic
over `ℚ` (the fixed cutoff literals 0.2 and 0.8 are read as the rationals
1/5 and 4/5).
-/

namespace MetaSV

/-- Dynamic runtime failures of the embedded Python code.  `indexError i`
records the offending (0-based) index of an out-of-range sequence access,
`valueError s` records the literal rejected by a numeric conversion,
`attributeError n` the name of a missing object attribute, `typeError` a
call-arity mismatch and `keyError` a failed dict lookup. -/
inductive PyErr where
  | indexError (idx : Nat)
  | valueError (s : String)
  | attributeError (name : String)
  | typeError (msg : String)
  | keyError (key : String)
  deriving DecidableEq, Repr

/-- Python `lst[i]` on a list of strings: the element, or IndexError. -/
def getField (fields : List String) (i : Nat) : Except PyErr String :=
  match fields.get? i with
  | some s => Except.ok s
  | none => Except.error (PyErr.indexError i)

/-- Reading a Python attribute that is only assigned on some construction
paths: `none` models an attribute `__init__` never set, so reading it raises
AttributeError with the attribute's name. -/
def pyAttr {α : Type} (o : Option α) (name : String) : Except PyErr α :=
  match o with
  | some v => Except.ok v
  | none => Except.error (PyErr.attributeError name)

/-- Decide whether every character of the list is a decimal digit. -/
def allDigits (l : List Char) : Bool :=
  l.all (fun c => c.isDigit)

/-- Value of a (validated) list of decimal digits, most significant first. -/
def natOfDigits (l : List Char) : Nat :=
  l.foldl (fun acc c => acc * 10 + (c.toNat - 48)) 0

/-- Python `s.strip()` / the whitespace trim both numeric conversions apply:
drop whitespace from both ends.  (Implemented over character lists by
structural recursion so that concrete inputs evaluate in the kernel.) -/
def pyTrim (s : String) : String :=
  String.mk
    (((s.toList.dropWhile (fun c => c.isWhitespace)).reverse.dropWhile
        (fun c => c.isWhitespace)).reverse)

/-- Python `int(s)`: strip surrounding whitespace, optional sign, then a
non-empty run of decimal digits; anything else raises ValueError. -/
def pyInt (s : String) : Except PyErr Int :=
  let core : Int × List Char :=
    match (pyTrim s).toList with
    | '+' :: r => (1, r)
    | '-' :: r => (-1, r)
    | r => (1, r)
  if core.2 ≠ [] ∧ allDigits core.2 then
    Except.ok (core.1 * Int.ofNat (natOfDigits core.2))
  else
    Except.error (PyErr.valueError s)

/-- Python `s.split(sep)` with a one-character separator, over character
lists: keeps empty pieces, and on the empty list yields `[[]]`. -/
def splitOnCharL (c : Char) : List Char → List (List Char)
  | [] => [[]]
  | x :: t =>
    if x = c then [] :: splitOnCharL c t
    else
      match splitOnCharL c t with
      | [] => [[x]]
      | h :: r => (x :: h) :: r

/-- Python `float(s)` restricted to plain decimal literals (optional sign,
digits with at most one dot); the value is the exact rational. -/
def pyFloat (s : String) : Except PyErr ℚ :=
  let core : ℚ × List Char :=
    match (pyTrim s).toList with
    | '+' :: r => (1, r)
    | '-' :: r => (-1, r)
    | r => (1, r)
  match splitOnCharL '.' core.2 with
  | [a] =>
    if a ≠ [] ∧ allDigits a then
      Except.ok (core.1 * (natOfDigits a : ℚ))
    else
      Except.error (PyErr.valueError s)
  | [a, b] =>
    if (a ≠ [] ∨ b ≠ []) ∧ allDigits a ∧ allDigits b then
      Except.ok (core.1 * ((natOfDigits a : ℚ) +
        (natOfDigits b : ℚ) / ((10 : ℚ) ^ b.length)))
    else
      Except.error (PyErr.valueError s)
  | _ => Except.error (PyErr.valueError s)

/-- Accumulator pass for `splitWs`: `cur` is the current word reversed,
`acc` the finished words reversed. -/
def splitWsGo (cur : List Char) (acc : List (List Char)) :
    List Char → List (List Char)
  | [] => if cur = [] then acc.reverse else (cur.reverse :: acc).reverse
  | c :: t =>
    if c.isWhitespace then
      if cur = [] then splitWsGo [] acc t
      else splitWsGo [] (cur.reverse :: acc) t
    else splitWsGo (c :: cur) acc t

/-- Python `s.split()` with no argument: split on runs of whitespace,
dropping empty pieces. -/
def splitWs (s : String) : List String :=
  (splitWsGo [] [] s.toList).map String.mk

/-- Python `s.split(sep)` with an explicit one-character separator. -/
def pySplitOn (s : String) (sep : Char) : List String :=
  (splitOnCharL sep s.toList).map String.mk

/-- Python `x.replace(c, "")` for a one-character pattern and empty
replacement: drop every occurrence of the character. -/
def pyRemoveChar (c : Char) (s : String) : String :=
  String.mk (s.toList.filter (fun x => x ≠ c))

/-- Python `xrange(a, b, step)` as a list of indices. -/
def xrangeL (a b step : Nat) : List Nat :=
  (List.range ((b - a + (step - 1)) / step)).map (fun k => a + step * k)

/-- Auxiliary scan for Python `s.find(sub)`: first index `≥ i` (counting from
the original start) at which `pat` occurs in the remaining character list. -/
def strFindAux (pat : List Char) : List Char → Nat → Option Nat
  | [], i => if ([] : List Char).take pat.length = pat then some i else none
  | c :: t, i =>
    if (c :: t).take pat.length = pat then some i else strFindAux pat t (i + 1)

/-- Python `s.find(sub)`: lowest index of an occurrence, `-1` when absent. -/
def pyFind (s pat : String) : Int :=
  match strFindAux pat.toList s.toList 0 with
  | some i => Int.ofNat i
  | none => -1

/-- Occurrence of `pat` in `s` at character index `i` (the declarative side
of `pyFind`, used to state containment claims). -/
def occursAt (s pat : String) (i : Nat) : Prop :=
  (s.toList.drop i).take pat.toList.length = pat.toList

instance (s pat : String) (i : Nat) : Decidable (occursAt s pat i) := by
  unfold occursAt; infer_instance

/- ----------------------------------------------------------------------
Unified interval model.
Modelled from the spec: `SVInterval` (imported from sv_interval, a module of
this repository not under src/) is the common output entity of §3: chromosome,
start/end, sv_type, signed length, source tags, optional cipos pair, optional
wiggle radius, optional genotype.  The native_record back-reference is a
read-only provenance link and is omitted here; no claim inspects it.
---------------------------------------------------------------------- -/

/-- Modelled from the spec: the unified interval entity (§3 Data Model) whose
constructor arguments the two `to_sv_interval` call sites fill in. -/
structure SVInterval where
  chrom : String
  start : Int
  endPos : Int
  sv_type : String
  length : Int
  sources : List String
  cipos : Option (Int × Int) := none
  wiggle : Option Int := none
  gt : Option String := none
  deriving DecidableEq, Repr

/-- Source constant `pindel_source = set(["Pindel"])`. -/
def pindel_source : List String := ["Pindel"]

/-- Source constant `breakdancer_source = set(["BreakDancer"])`. -/
def breakdancer_source : List String := ["BreakDancer"]

/-- Source constant `valid_breakdancer_svs = set(["DEL", "INS"])`. -/
def valid_breakdancer_svs : List String := ["DEL", "INS"]

/-- Source constant `min_coverage = 10`. -/
def min_coverage : Int := 10

/-- Source constant `het_cutoff = 0.2` (float idealized as the rational). -/
def het_cutoff : ℚ := 0.2

/-- Source constant `hom_cutoff = 0.8` (float idealized as the rational). -/
def hom_cutoff : ℚ := 0.8

/-- Source constant `GT_REF = "0/0"`. -/
def GT_REF : String := "0/0"

/-- Source constant `GT_HET = "0/1"`. -/
def GT_HET : String := "0/1"

/-- Source constant `GT_HOM = "1/1"`. -/
def GT_HOM : String := "1/1"

/-- Source constant `PINDEL_TO_SV_TYPE`, the fixed subtype-to-canonical-type
dict, as an association list. -/
def PINDEL_TO_SV_TYPE : List (String × String) :=
  [("I", "INS"), ("D", "DEL"), ("LI", "INS"), ("TD", "DUP:TANDEM"), ("INV", "INV")]

/-- Python `d[k]` on an association-list dict: the value, or KeyError. -/
def dictGet (d : List (String × String)) (k : String) : Except PyErr String :=
  match d.find? (fun p => p.1 = k) with
  | some p => Except.ok p.2
  | none => Except.error (PyErr.keyError k)

/-- One per-sample support entry of a PindelRecord.  The two ref-support
counts are assigned only by the non-LI constructor path. -/
structure PdSample where
  name : String
  ref_support_at_start : Option Int
  ref_support_at_end : Option Int
  plus_support : Int
  minus_support : Int
  deriving DecidableEq, Repr

/-- The attribute set of a constructed `PindelRecord`.  Attributes that the
LI constructor branch never assigns are `Option`-valued (`none` on LI
records); reading them through `pyAttr` reproduces Python's AttributeError.
`gt` is assigned by `derive_genotype` at the end of construction. -/
structure PindelRecordData where
  sv_type : String
  sv_len : Int
  num_nt_added : Option (List Int)
  nt_added : Option (List String)
  chromosome : String
  start_pos : Int
  end_pos : Int
  bp_range : Int × Int
  read_supp : Option Int
  uniq_read_supp : Option Int
  up_read_supp : Int
  up_uniq_read_supp : Option Int
  down_read_supp : Int
  down_uniq_read_supp : Option Int
  simple_score : Option Int
  sum_mapq : Option Int
  num_sample : Option Int
  num_sample_supp : Option Int
  num_sample_uniq_supp : Option Int
  homlen : Int
  homseq : String
  samples : List PdSample
  gt : String
  deriving DecidableEq, Repr

/-- PindelRecord.derive_genotype: genotype from support counts.  For "LI"/"I"
it uses raw up/downstream support; otherwise unique event reads against
unique up+downstream reference reads with the fixed thresholds.  The
non-LI-only attributes are read through `pyAttr` (they exist on every record
that reaches this branch, since layout is selected by the same subtype). -/
def derive_genotype (r : PindelRecordData) : Except PyErr String :=
  if r.sv_type = "LI" ∨ r.sv_type = "I" then
    Except.ok (if 0 < r.up_read_supp + r.down_read_supp then GT_HET else GT_REF)
  else do
    let total_event_reads ← pyAttr r.uniq_read_supp "uniq_read_supp"
    let upU ← pyAttr r.up_uniq_read_supp "up_uniq_read_supp"
    let downU ← pyAttr r.down_uniq_read_supp "down_uniq_read_supp"
    let total_ref_reads := upU + downU
    if total_event_reads + total_ref_reads < min_coverage then
      pure GT_REF
    else
      let allele_fraction : ℚ :=
        (total_event_reads : ℚ) / ((total_event_reads : ℚ) + (total_ref_reads : ℚ))
      if allele_fraction < het_cutoff then pure GT_REF
      else if allele_fraction < hom_cutoff then pure GT_HET
      else pure GT_HOM

/-- PindelRecord.__init__: parse the whitespace-split fields of one data
line, with the two subtype-selected layouts, reading fields in the source's
order; `fetch` is the external reference accessor (`reference_handle.fetch`).
`gt` is filled in by the `derive_genotype` call that ends construction. -/
def parsePindelRecord (fields : List String)
    (fetch : String → Int → Int → String) : Except PyErr PindelRecordData := do
  let sv_type ← getField fields 1
  if sv_type ≠ "LI" then
    let sv_len ← pyInt (← getField fields 2)
    let num_nt_added ← (pySplitOn (← getField fields 4) ':').mapM pyInt
    let nt_added := (pySplitOn (← getField fields 5) ':').map
      (fun x => pyRemoveChar '"' x)
    let chromosome ← getField fields 7
    let start_pos ← pyInt (← getField fields 9)
    let end_pos ← pyInt (← getField fields 10)
    let bpr1 ← pyInt (← getField fields 12)
    let bpr2 ← pyInt (← getField fields 13)
    let read_supp ← pyInt (← getField fields 15)
    let uniq_read_supp ← pyInt (← getField fields 16)
    let up_read_supp ← pyInt (← getField fields 18)
    let up_uniq_read_supp ← pyInt (← getField fields 19)
    let down_read_supp ← pyInt (← getField fields 21)
    let down_uniq_read_supp ← pyInt (← getField fields 22)
    let simple_score ← pyInt (← getField fields 24)
    let sum_mapq ← pyInt (← getField fields 26)
    let num_sample ← pyInt (← getField fields 27)
    let num_sample_supp ← pyInt (← getField fields 29)
    let num_sample_uniq_supp ← pyInt (← getField fields 30)
    let homlen := bpr2 - end_pos
    let homseq := fetch chromosome (end_pos - 1) (bpr2 - 1)
    let samples ← (xrangeL 31 fields.length 5).mapM (fun i => do
      let name ← getField fields i
      let a ← pyInt (← getField fields (i + 1))
      let b ← pyInt (← getField fields (i + 2))
      let c ← pyInt (← getField fields (i + 3))
      let d ← pyInt (← getField fields (i + 4))
      pure { name := name, ref_support_at_start := some a,
             ref_support_at_end := some b, plus_support := c,
             minus_support := d : PdSample })
    let base : PindelRecordData :=
      { sv_type := sv_type, sv_len := sv_len,
        num_nt_added := some num_nt_added, nt_added := some nt_added,
        chromosome := chromosome, start_pos := start_pos, end_pos := end_pos,
        bp_range := (bpr1, bpr2), read_supp := some read_supp,
        uniq_read_supp := some uniq_read_supp, up_read_supp := up_read_supp,
        up_uniq_read_supp := some up_uniq_read_supp,
        down_read_supp := down_read_supp,
        down_uniq_read_supp := some down_uniq_read_supp,
        simple_score := some simple_score, sum_mapq := some sum_mapq,
        num_sample := some num_sample, num_sample_supp := some num_sample_supp,
        num_sample_uniq_supp := some num_sample_uniq_supp,
        homlen := homlen, homseq := homseq, samples := samples, gt := "" }
    let gt ← derive_genotype base
    pure { base with gt := gt }
  else
    let chromosome ← getField fields 3
    let start_pos ← pyInt (← getField fields 4)
    let up_read_supp ← pyInt (← getField fields 6)
    let end_pos ← pyInt (← getField fields 7)
    let down_read_supp ← pyInt (← getField fields 8)
    let samples ← (xrangeL 10 fields.length 5).mapM (fun i => do
      let name ← getField fields i
      let c ← pyInt (← getField fields (i + 2))
      let d ← pyInt (← getField fields (i + 4))
      pure { name := name, ref_support_at_start := none,
             ref_support_at_end := none, plus_support := c,
             minus_support := d : PdSample })
    let base : PindelRecordData :=
      { sv_type := sv_type, sv_len := 0,
        num_nt_added := none, nt_added := none,
        chromosome := chromosome, start_pos := start_pos, end_pos := end_pos,
        bp_range := (start_pos, end_pos), read_supp := none,
        uniq_read_supp := none, up_read_supp := up_read_supp,
        up_uniq_read_supp := none, down_read_supp := down_read_supp,
        down_uniq_read_supp := none, simple_score := none, sum_mapq := none,
        num_sample := none, num_sample_supp := none,
        num_sample_uniq_supp := none, homlen := 0, homseq := "",
        samples := samples, gt := "" }
    let gt ← derive_genotype base
    pure { base with gt := gt }

/-- PindelRecord.to_sv_interval: map the subtype through PINDEL_TO_SV_TYPE
(KeyError on unknown subtypes), then build a span interval for non-INS types
and a point interval with wiggle 100 and the stored genotype for INS. -/
def PindelRecordData.to_sv_interval (r : PindelRecordData) :
    Except PyErr SVInterval := do
  let sv_type ← dictGet PINDEL_TO_SV_TYPE r.sv_type
  if sv_type ≠ "INS" then
    pure { chrom := r.chromosome, start := r.start_pos, endPos := r.end_pos,
           sv_type := sv_type, length := r.sv_len, sources := pindel_source }
  else
    pure { chrom := r.chromosome, start := r.start_pos, endPos := r.start_pos,
           sv_type := sv_type, length := r.sv_len, sources := pindel_source,
           wiggle := some 100, gt := some r.gt }

/-- The VCF record payload `to_vcf_record` would construct at source line
206.  That construction is never reached: it reads `self.chr1`/`self.pos1`,
attributes no PindelRecord defines (see `PindelRecordData.to_vcf_record`). -/
structure VcfRecord where
  chrom : String
  pos : Int
  alt : List String
  info_END : Int
  gt : String
  deriving DecidableEq, Repr

/-- PindelRecord.to_vcf_record: build the INFO dict (reading, in source
order, the attributes the LI constructor branch never assigns — AttributeError
on LI records), then dispatch on `self.sv_type`.  The dispatch compares the
RAW Pindel subtype against the canonical names "DEL"/"INV"/"DUP:TANDEM"/"INS"
without applying PINDEL_TO_SV_TYPE, and the matching branches read
`self.pos1` (and later `self.chr1`), attributes that `__init__` never
assigns, so they raise AttributeError; all other subtypes return None. -/
def PindelRecordData.to_vcf_record (r : PindelRecordData) (_sample : String) :
    Except PyErr (Option VcfRecord) := do
  let _alt := ["<" ++ r.sv_type ++ ">"]
  -- INFO dict literal: SVLEN and SVTYPE always exist, then the values below
  -- are fetched in the dict's written order.
  let _num_nt_added ← pyAttr r.num_nt_added "num_nt_added"
  let _nt_added ← pyAttr r.nt_added "nt_added"
  let _read_supp ← pyAttr r.read_supp "read_supp"
  let _uniq_read_supp ← pyAttr r.uniq_read_supp "uniq_read_supp"
  let _up_uniq_read_supp ← pyAttr r.up_uniq_read_supp "up_uniq_read_supp"
  let _down_uniq_read_supp ← pyAttr r.down_uniq_read_supp "down_uniq_read_supp"
  let _simple_score ← pyAttr r.simple_score "simple_score"
  let _sum_mapq ← pyAttr r.sum_mapq "sum_mapq"
  let _num_sample ← pyAttr r.num_sample "num_sample"
  let _num_sample_supp ← pyAttr r.num_sample_supp "num_sample_supp"
  let _num_sample_uniq_supp ← pyAttr r.num_sample_uniq_supp "num_sample_uniq_supp"
  if r.sv_type = "DEL" ∨ r.sv_type = "INV" ∨ r.sv_type = "DUP:TANDEM" then
    -- info["END"] = self.pos1 + self.sv_len: no pos1 attribute exists
    Except.error (PyErr.attributeError "pos1")
  else if r.sv_type = "INS" then
    -- info["END"] = self.pos1: no pos1 attribute exists
    Except.error (PyErr.attributeError "pos1")
  else
    pure none

/-- PindelReader.next keeps a pulled line iff `line.find("ChrID") >= 1`
(source line 225); every other line is skipped. -/
def pindelIsDataLine (line : String) : Bool :=
  decide (1 ≤ pyFind line "ChrID")

/-- Python `line.strip()`. -/
def pyStrip (s : String) : String :=
  pyTrim s

/-- The full record sequence the PindelReader yields over a finite source:
lines failing the data-line test are skipped, the rest are stripped and
parsed; exhaustion of the list ends the sequence. -/
def readPindelRecords (lines : List String)
    (fetch : String → Int → Int → String) : Except PyErr (List PindelRecordData) :=
  (lines.filter pindelIsDataLine).mapM
    (fun line => parsePindelRecord (splitWs (pyStrip line)) fetch)

/- ----------------------------------------------------------------------
BreakDancer.
---------------------------------------------------------------------- -/

/-- The attribute set of a constructed `BreakDancerRecord`.  The per-library
breakdown is kept as the association list Python's `dict(...)` is built from
(duplicate keys resolve last-wins at the dict stage; no claim exercises
duplicates). -/
structure BreakDancerRecord where
  chr1 : String
  pos1 : Int
  ori1 : String
  chr2 : String
  pos2 : Int
  ori2 : String
  sv_type : String
  sv_len : Int
  score : ℚ
  supporting_read_pairs : Int
  supporting_reads_pairs_lib : List (String × Int)
  deriving DecidableEq, Repr

/-- BreakDancerRecord.__init__: split fields are consumed strictly in source
order (fields 0..10, numeric conversions interleaved), then the compound
field 10 is split on ":" and each group on "|". -/
def parseBreakDancerRecord (fields : List String) :
    Except PyErr BreakDancerRecord := do
  let chr1 ← getField fields 0
  let pos1 ← pyInt (← getField fields 1)
  let ori1 ← getField fields 2
  let chr2 ← getField fields 3
  let pos2 ← pyInt (← getField fields 4)
  let ori2 ← getField fields 5
  let sv_type ← getField fields 6
  let sv_len ← pyInt (← getField fields 7)
  let score ← pyFloat (← getField fields 8)
  let supporting_read_pairs ← pyInt (← getField fields 9)
  let f10 ← getField fields 10
  let libPairs ← (pySplitOn f10 ':').mapM (fun s => do
    let l := pySplitOn s '|'
    let k ← getField l 0
    let v ← pyInt (← getField l 1)
    pure (k, v))
  pure { chr1 := chr1, pos1 := pos1, ori1 := ori1, chr2 := chr2, pos2 := pos2,
         ori2 := ori2, sv_type := sv_type, sv_len := sv_len, score := score,
         supporting_read_pairs := supporting_read_pairs,
         supporting_reads_pairs_lib := libPairs }

/-- BreakDancerRecord.to_sv_interval: None for types outside {DEL, INS};
DEL spans `[pos1, pos1 + |sv_len|]` with cipos `(0, pos2 - pos1 - |sv_len|)`;
INS is the point `pos1` with cipos `(0, pos2 - pos1)`. -/
def BreakDancerRecord.to_sv_interval (r : BreakDancerRecord) :
    Option SVInterval :=
  if r.sv_type ∉ valid_breakdancer_svs then none
  else if r.sv_type = "DEL" then
    some { chrom := r.chr1, start := r.pos1, endPos := r.pos1 + |r.sv_len|,
           sv_type := r.sv_type, length := r.sv_len,
           sources := breakdancer_source,
           cipos := some (0, r.pos2 - r.pos1 - |r.sv_len|) }
  else
    some { chrom := r.chr1, start := r.pos1, endPos := r.pos1,
           sv_type := "INS", length := r.sv_len,
           sources := breakdancer_source,
           cipos := some (0, r.pos2 - r.pos1) }

/- ----------------------------------------------------------------------
convert_pindel_to_vcf and the PindelReader constructor's arity.
---------------------------------------------------------------------- -/

/-- A Python value passed to `PindelReader.__init__`: the file name or the
reference handle (the handle is its `fetch` method). -/
inductive PyVal where
  | str (s : String)
  | refHandle (fetch : String → Int → Int → String)

/-- Calling `PindelReader.__init__(self, file_name, reference_handle)` with
an explicit argument list: Python checks the call arity, raising TypeError
unless exactly the two non-self arguments are supplied. -/
def callPindelReaderInit (args : List PyVal) :
    Except PyErr (PyVal × PyVal) :=
  match args with
  | [fn, rh] => Except.ok (fn, rh)
  | _ => Except.error (PyErr.typeError "pindelreader init takes exactly 3 arguments")

/-- Python `value.fetch`: only a reference handle has the method. -/
def pyAsHandle (v : PyVal) : Except PyErr (String → Int → Int → String) :=
  match v with
  | PyVal.refHandle f => Except.ok f
  | PyVal.str _ => Except.error (PyErr.attributeError "fetch")

/-- convert_pindel_to_vcf: template/writer setup is external (§6); the loop
source is `PindelReader(file_name)` — one argument where `__init__` requires
file_name and reference_handle, so construction raises TypeError before any
record is pulled.  The (dead) loop body converts each record and skips None
results, mirroring source lines 234-238. -/
def convert_pindel_to_vcf (file_name sample _out_vcf : String)
    (lines : List String) : Except PyErr (List VcfRecord) := do
  let reader ← callPindelReaderInit [PyVal.str file_name]
  let fetch ← pyAsHandle reader.2
  let records ← readPindelRecords lines fetch
  let recOpts ← records.mapM (fun r => r.to_vcf_record sample)
  pure (recOpts.filterMap id)

/- ----------------------------------------------------------------------
Concrete records used by witnesses and counterexamples.
---------------------------------------------------------------------- -/

/-- A concrete non-LI deletion record (subtype "D") as the Pindel parser
builds it: deletion of length 50 at chr20:1000-1050, coverage-rich support. -/
def recD : PindelRecordData :=
  { sv_type := "D", sv_len := 50,
    num_nt_added := some [0], nt_added := some [""],
    chromosome := "chr20", start_pos := 1000, end_pos := 1050,
    bp_range := (1000, 1052), read_supp := some 12,
    uniq_read_supp := some 12, up_read_supp := 6,
    up_uniq_read_supp := some 3, down_read_supp := 6,
    down_uniq_read_supp := some 3, simple_score := some 49,
    sum_mapq := some 720, num_sample := some 1,
    num_sample_supp := some 1, num_sample_uniq_supp := some 1,
    homlen := 2, homseq := "AC", samples := [], gt := GT_HET }

/-- A concrete insertion-subtype record ("I") with nonzero support. -/
def recI : PindelRecordData :=
  { sv_type := "I", sv_len := 10,
    num_nt_added := some [10], nt_added := some ["ACGTACGTAC"],
    chromosome := "chr20", start_pos := 2000, end_pos := 2001,
    bp_range := (2000, 2001), read_supp := some 8,
    uniq_read_supp := some 8, up_read_supp := 4,
    up_uniq_read_supp := some 2, down_read_supp := 4,
    down_uniq_read_supp := some 2, simple_score := some 25,
    sum_mapq := some 480, num_sample := some 1,
    num_sample_supp := some 1, num_sample_uniq_supp := some 1,
    homlen := 0, homseq := "", samples := [], gt := GT_HET }

/-- A concrete non-LI record used for genotype-boundary witnesses:
subtype "D" with 2 unique event reads against 8 unique reference reads
(coverage 10, allele fraction exactly 0.2). -/
def recW : PindelRecordData :=
  { recD with uniq_read_supp := some 2, up_uniq_read_supp := some 2,
              down_uniq_read_supp := some 6 }

/-- A concrete BreakDancer deletion record (the spec §8 literal example). -/
def bdRecDel : BreakDancerRecord :=
  { chr1 := "1", pos1 := 59257, ori1 := "5+1-", chr2 := "1", pos2 := 60164,
    ori2 := "0+5-", sv_type := "DEL", sv_len := 862, score := 99,
    supporting_read_pairs := 5,
    supporting_reads_pairs_lib := [("nA", 2), ("tB", 1)] }

/-- A concrete BreakDancer insertion record (the spec §2 example 3). -/
def bdRecIns : BreakDancerRecord :=
  { chr1 := "1", pos1 := 62767, ori1 := "10+0-", chr2 := "1", pos2 := 63126,
    ori2 := "0+10-", sv_type := "INS", sv_len := -13, score := 36,
    supporting_read_pairs := 10,
    supporting_reads_pairs_lib := [("NA", 10)] }

/-- A concrete BreakDancer inversion record (not convertible). -/
def bdRecInv : BreakDancerRecord :=
  { bdRecDel with sv_type := "INV" }

/-- Whitespace-split fields of a well-formed non-LI Pindel line whose
breakpoints are out of order (start 10, end 5): 31 fields, no sample block. -/
def badFields : List String :=
  ["0", "D", "5", "NT", "0", "\"\"", "ChrID", "chr1", "BP", "10", "5",
   "BP_range", "10", "7", "Supports", "12", "4", "+", "6", "2", "-", "6",
   "2", "S1", "49", "SUM_MS", "720", "1", "NumSupSamples", "1", "1"]

/-- The record `parsePindelRecord` produces from `badFields` under a fetch
stub returning "" everywhere. -/
def badRecord : PindelRecordData :=
  { sv_type := "D", sv_len := 5,
    num_nt_added := some [0], nt_added := some [""],
    chromosome := "chr1", start_pos := 10, end_pos := 5,
    bp_range := (10, 7), read_supp := some 12,
    uniq_read_supp := some 4, up_read_supp := 6,
    up_uniq_read_supp := some 2, down_read_supp := 6,
    down_uniq_read_supp := some 2, simple_score := some 49,
    sum_mapq := some 720, num_sample := some 1,
    num_sample_supp := some 1, num_sample_uniq_supp := some 1,
    homlen := 2, homseq := "", samples := [], gt := GT_REF }

/-- The interval `to_sv_interval` yields on `badRecord`: its endpoints are
out of order. -/
def badInterval : SVInterval :=
  { chrom := "chr1", start := 10, endPos := 5, sv_type := "DEL", length := 5,
    sources := pindel_source }

/-- Decidable equality of embedded results, for concrete evaluations. -/
instance {ε α : Type} [DecidableEq ε] [DecidableEq α] :
    DecidableEq (Except ε α) := fun x y =>
  match x, y with
  | Except.ok a, Except.ok b =>
    if h : a = b then Decidable.isTrue (by rw [h])
    else Decidable.isFalse (fun hc => h (Except.ok.inj hc))
  | Except.error e, Except.error f =>
    if h : e = f then Decidable.isTrue (by rw [h])
    else Decidable.isFalse (fun hc => h (Except.error.inj hc))
  | Except.ok _, Except.error _ =>
    Decidable.isFalse (fun hc => Except.noConfusion hc)
  | Except.error _, Except.ok _ =>
    Decidable.isFalse (fun hc => Except.noConfusion hc)

/-- Whether an embedded parse outcome is a success. -/
def isOkE {α : Type} (x : Except PyErr α) : Bool :=
  match x with
  | Except.ok _ => true
  | Except.error _ => false

/-- Whether a BreakDancer parse outcome is the error that names a missing
(out-of-range) column index. -/
def errIdentifiesMissingColumn (x : Except PyErr BreakDancerRecord) : Bool :=
  match x with
  | Except.error (PyErr.indexError _) => true
  | _ => false

/-- The numeric fields of a BreakDancer line that exist are all well formed:
the int columns 1, 4, 7, 9 and the float column 8, when present, convert. -/
def bdNumericFieldsOk (fields : List String) : Bool :=
  (([1, 4, 7, 9] : List Nat).all fun i =>
    match fields.get? i with
    | some s => isOkE (pyInt s)
    | none => true) &&
  (match fields.get? 8 with
   | some s => isOkE (pyFloat s)
   | none => true)

/-- Fields of a well-formed Pindel "D" line (31 fields, no sample block). -/
def pdFieldsD : List String :=
  ["624", "D", "1671", "NT", "0", "\"\"", "ChrID", "chr20", "BP", "1337143",
   "1338815", "BP_range", "1337143", "1338818", "Supports", "4", "4", "+",
   "2", "2", "-", "2", "2", "S1", "9", "SUM_MS", "240", "1", "NumSupSamples",
   "1", "1"]

/-- A constant reference accessor used in homology witnesses. -/
def fetchC : String → Int → Int → String := fun _ _ _ => "AC"

/-- The record parsed from `pdFieldsD` under `fetchC`. -/
def pdRecD : PindelRecordData :=
  { sv_type := "D", sv_len := 1671,
    num_nt_added := some [0], nt_added := some [""],
    chromosome := "chr20", start_pos := 1337143, end_pos := 1338815,
    bp_range := (1337143, 1338818), read_supp := some 4,
    uniq_read_supp := some 4, up_read_supp := 2,
    up_uniq_read_supp := some 2, down_read_supp := 2,
    down_uniq_read_supp := some 2, simple_score := some 9,
    sum_mapq := some 240, num_sample := some 1,
    num_sample_supp := some 1, num_sample_uniq_supp := some 1,
    homlen := 3, homseq := "AC", samples := [], gt := GT_REF }

/-- Fields of a Pindel LI line the embedded parser accepts (9 fields). -/
def liFields : List String :=
  ["57", "LI", "ChrID", "chr20", "31037", "+", "12", "31047", "9"]

/-- The record parsed from `liFields` (any fetch; LI never fetches). -/
def liRec : PindelRecordData :=
  { sv_type := "LI", sv_len := 0,
    num_nt_added := none, nt_added := none,
    chromosome := "chr20", start_pos := 31037, end_pos := 31047,
    bp_range := (31037, 31047), read_supp := none,
    uniq_read_supp := none, up_read_supp := 12,
    up_uniq_read_supp := none, down_read_supp := 9,
    down_uniq_read_supp := none, simple_score := none, sum_mapq := none,
    num_sample := none, num_sample_supp := none,
    num_sample_uniq_supp := none, homlen := 0, homseq := "",
    samples := [], gt := GT_HET }

/-- The interval `to_sv_interval` yields on `bdRecDel`. -/
def bdDelIv : SVInterval :=
  { chrom := "1", start := 59257, endPos := 59257 + 862, sv_type := "DEL",
    length := 862, sources := breakdancer_source,
    cipos := some (0, 60164 - 59257 - 862) }

/-- The interval `to_sv_interval` yields on `recI`. -/
def recIIv : SVInterval :=
  { chrom := "chr20", start := 2000, endPos := 2000, sv_type := "INS",
    length := 10, sources := pindel_source, wiggle := some 100,
    gt := some GT_HET }

/- ----------------------------------------------------------------------
Helper lemmas.
---------------------------------------------------------------------- -/

theorem pureE {α : Type} (a : α) : (pure a : Except PyErr α) = Except.ok a :=
  rfl

theorem bindE_ok {α β : Type} {x : Except PyErr α} {f : α → Except PyErr β}
    {b : β} :
    (x >>= f) = Except.ok b ↔ ∃ a, x = Except.ok a ∧ f a = Except.ok b := by
  cases x with
  | error e => simp [Bind.bind, Except.bind]
  | ok a => simp [Bind.bind, Except.bind]

theorem seqNoneOrError {γ : Type} (x : Except PyErr γ)
    (k : γ → Except PyErr (Option VcfRecord))
    (hk : ∀ v, k v = Except.ok none ∨ ∃ e, k v = Except.error e) :
    (x >>= k) = Except.ok none ∨ ∃ e, (x >>= k) = Except.error e := by
  cases x with
  | error e => exact Or.inr ⟨e, rfl⟩
  | ok v => simpa [Bind.bind, Except.bind] using hk v

theorem getField_lt {fields : List String} {i : Nat} (h : i < fields.length) :
    ∃ s, getField fields i = Except.ok s := by
  unfold getField
  rw [List.get?_eq_get h]
  exact ⟨_, rfl⟩

theorem getField_ge {fields : List String} {i : Nat}
    (h : fields.length ≤ i) :
    getField fields i = Except.error (PyErr.indexError i) := by
  unfold getField
  rw [List.get?_eq_none.mpr h]

theorem getField_ok_get {fields : List String} {i : Nat} {s : String}
    (h : getField fields i = Except.ok s) : fields.get? i = some s := by
  unfold getField at h
  cases hx : fields.get? i with
  | none => rw [hx] at h; cases h
  | some t => rw [hx] at h; exact congrArg some (Except.ok.inj h).symm ▸ (by
      cases h; rfl)

theorem bdWf_int {fields : List String} {s : String} (i : Nat)
    (hi : i ∈ ([1, 4, 7, 9] : List Nat))
    (hwf : bdNumericFieldsOk fields = true)
    (hs : fields.get? i = some s) : ∃ v, pyInt s = Except.ok v := by
  unfold bdNumericFieldsOk at hwf
  rw [Bool.and_eq_true] at hwf
  have hall := List.all_eq_true.mp hwf.1 i hi
  rw [hs] at hall
  dsimp only at hall
  cases hv : pyInt s with
  | ok v => exact ⟨v, rfl⟩
  | error e => rw [hv] at hall; simp [isOkE] at hall

theorem bdWf_float {fields : List String} {s : String}
    (hwf : bdNumericFieldsOk fields = true)
    (hs : fields.get? 8 = some s) : ∃ v, pyFloat s = Except.ok v := by
  unfold bdNumericFieldsOk at hwf
  rw [Bool.and_eq_true] at hwf
  have h8 := hwf.2
  rw [hs] at h8
  dsimp only at h8
  cases hv : pyFloat s with
  | ok v => exact ⟨v, rfl⟩
  | error e => rw [hv] at h8; simp [isOkE] at h8

theorem strFindAux_none_iff (pat : List Char) :
    ∀ (l : List Char) (i : Nat),
      strFindAux pat l i = none ↔
        ∀ k, (l.drop k).take pat.length ≠ pat := by
  intro l
  induction l with
  | nil =>
    intro i
    simp only [strFindAux, List.take_nil]
    split_ifs with h
    · constructor
      · intro habs; cases habs
      · intro hall; exact absurd h (by simpa using hall 0)
    · constructor
      · intro _ k; simpa using h
      · intro _; rfl
  | cons c t ih =>
    intro i
    simp only [strFindAux]
    split_ifs with h
    · constructor
      · intro habs; cases habs
      · intro hall; exact absurd h (by simpa using hall 0)
    · rw [ih (i + 1)]
      constructor
      · intro hall k
        cases k with
        | zero => simpa using h
        | succ kk => simpa using hall kk
      · intro hall k
        simpa using hall (k + 1)

theorem strFindAux_some (pat : List Char) :
    ∀ (l : List Char) (i j : Nat), strFindAux pat l i = some j →
      i ≤ j ∧ (l.drop (j - i)).take pat.length = pat ∧
        ∀ m, m < j - i → (l.drop m).take pat.length ≠ pat := by
  intro l
  induction l with
  | nil =>
    intro i j h
    simp only [strFindAux, List.take_nil] at h
    split_ifs at h with hc
    · obtain rfl : i = j := Option.some.inj h
      refine ⟨Nat.le_refl i, by simpa using hc, ?_⟩
      intro m hm
      exact absurd hm (by omega)
  | cons c t ih =>
    intro i j h
    simp only [strFindAux] at h
    split_ifs at h with hc
    · obtain rfl : i = j := Option.some.inj h
      refine ⟨Nat.le_refl i, by simpa using hc, ?_⟩
      intro m hm
      exact absurd hm (by omega)
    · obtain ⟨h1, h2, h3⟩ := ih (i + 1) j h
      refine ⟨by omega, ?_, ?_⟩
      · have hji : j - i = (j - (i + 1)) + 1 := by omega
        rw [hji]
        simpa using h2
      · intro m hm
        cases m with
        | zero => simpa using hc
        | succ mm =>
          have hmm : mm < j - (i + 1) := by omega
          simpa using h3 mm hmm

/- ----------------------------------------------------------------------
Claim theorems.
---------------------------------------------------------------------- -/

/-- C5: the claim says a pulled line is parsed iff it contains "ChrID"
anywhere; the code tests `line.find("ChrID") >= 1`, so the corrected
statement is: a pulled line is handed to the record parser iff "ChrID"
occurs in it at some index and its first occurrence is not at index 0
(equivalently, the line does not begin with "ChrID"); all other lines are
skipped. -/
theorem pindel_dataline_amended :
    ∀ line : String,
      pindelIsDataLine line = true ↔
        ((∃ i, occursAt line "ChrID" i) ∧ ¬ occursAt line "ChrID" 0) := by
  intro line
  unfold pindelIsDataLine pyFind occursAt
  cases hf : strFindAux ("ChrID".toList) line.toList 0 with
  | none =>
    have hall := (strFindAux_none_iff _ _ _).mp hf
    simp only [hf]
    constructor
    · intro habs; simp at habs
    · rintro ⟨⟨i, hi⟩, -⟩
      exact absurd hi (hall i)
  | some j =>
    obtain ⟨-, hocc, hmin⟩ := strFindAux_some _ _ _ _ hf
    simp only [hf, decide_eq_true_eq]
    constructor
    · intro h1
      rw [Int.ofNat_eq_natCast] at h1
      have hj : 1 ≤ j := by exact_mod_cast h1
      refine ⟨⟨j, by simpa using hocc⟩, ?_⟩
      simpa using hmin 0 (by omega)
    · rintro ⟨⟨i, hi⟩, h0⟩
      by_contra hlt
      rw [Int.ofNat_eq_natCast] at hlt
      have hj0 : j = 0 := by omega
      exact h0 (by simpa [hj0] using hocc)

/-- C5 counterexample: the line "ChrID 20 1000" contains the token "ChrID"
(at index 0) yet the reader predicate rejects it, so the claim's
containment-anywhere reading is false. -/
theorem pindel_dataline_counterexample :
    occursAt "ChrID 20 1000" "ChrID" 0 ∧
    pindelIsDataLine "ChrID 20 1000" = false := by
  constructor
  · decide
  · decide

/-- C5 witness: the amended criterion applied at a line whose first "ChrID"
occurrence is at index 6. -/
theorem pindel_dataline_amended_witness :
    pindelIsDataLine "624 D ChrID chr20" = true :=
  (pindel_dataline_amended "624 D ChrID chr20").mpr ⟨⟨6, by decide⟩, by decide⟩

/-- C1: the claim says `to_vcf_record` emits a record with INFO END equal to
start_pos + sv_len for mapped types DEL/INV/DUP_TANDEM and start_pos for INS.
The code instead dispatches on the RAW subtype without applying
PINDEL_TO_SV_TYPE and reads the nonexistent attributes pos1/chr1 in the
matching branches, so no call ever yields a record: every call returns None
or raises; in particular the concrete deletion record `recD` (raw subtype
"D", mapped type DEL) yields None instead of a record with END = 1050. -/
theorem pindel_to_vcf_never_yields_record :
    (∀ (r : PindelRecordData) (s : String),
        r.to_vcf_record s = Except.ok none ∨
        ∃ e, r.to_vcf_record s = Except.error e) ∧
    recD.to_vcf_record "S1" = Except.ok none := by
  constructor
  · intro r s
    simp only [PindelRecordData.to_vcf_record]
    refine seqNoneOrError _ _ (fun v1 => ?_)
    refine seqNoneOrError _ _ (fun v2 => ?_)
    refine seqNoneOrError _ _ (fun v3 => ?_)
    refine seqNoneOrError _ _ (fun v4 => ?_)
    refine seqNoneOrError _ _ (fun v5 => ?_)
    refine seqNoneOrError _ _ (fun v6 => ?_)
    refine seqNoneOrError _ _ (fun v7 => ?_)
    refine seqNoneOrError _ _ (fun v8 => ?_)
    refine seqNoneOrError _ _ (fun v9 => ?_)
    refine seqNoneOrError _ _ (fun v10 => ?_)
    refine seqNoneOrError _ _ (fun v11 => ?_)
    by_cases h1 : r.sv_type = "DEL" ∨ r.sv_type = "INV" ∨
        r.sv_type = "DUP:TANDEM"
    · exact Or.inr ⟨_, by rw [if_pos h1]⟩
    · rw [if_neg h1]
      by_cases h2 : r.sv_type = "INS"
      · exact Or.inr ⟨_, by rw [if_pos h2]⟩
      · rw [if_neg h2]
        exact Or.inl rfl
  · decide

/-- C3: for BreakDancer DEL records `to_sv_interval` yields the interval
with start = pos1, end = pos1 + |sv_len| (hence end - start = |sv_len|) and
cipos (0, pos2 - pos1 - |sv_len|); for INS records it yields the point
interval at pos1 with sv_type INS and cipos (0, pos2 - pos1). -/
theorem bd_to_sv_interval_del_ins :
    (∀ r : BreakDancerRecord, r.sv_type = "DEL" →
       r.to_sv_interval.map SVInterval.start = some r.pos1 ∧
       r.to_sv_interval.map SVInterval.endPos = some (r.pos1 + |r.sv_len|) ∧
       r.to_sv_interval.map (fun iv => iv.endPos - iv.start) =
         some |r.sv_len| ∧
       r.to_sv_interval.map SVInterval.cipos =
         some (some (0, r.pos2 - r.pos1 - |r.sv_len|))) ∧
    (∀ r : BreakDancerRecord, r.sv_type = "INS" →
       r.to_sv_interval.map SVInterval.start = some r.pos1 ∧
       r.to_sv_interval.map SVInterval.endPos = some r.pos1 ∧
       r.to_sv_interval.map SVInterval.sv_type = some "INS" ∧
       r.to_sv_interval.map SVInterval.cipos =
         some (some (0, r.pos2 - r.pos1))) := by
  constructor
  · intro r h
    simp [BreakDancerRecord.to_sv_interval, h, valid_breakdancer_svs]
  · intro r h
    simp [BreakDancerRecord.to_sv_interval, h, valid_breakdancer_svs]

/-- C3 witness: the two implications applied at the spec's literal DEL and
INS example records. -/
theorem bd_to_sv_interval_del_ins_witness :
    bdRecDel.sv_type = "DEL" ∧
    bdRecDel.to_sv_interval.map SVInterval.endPos = some (59257 + 862) ∧
    bdRecIns.sv_type = "INS" ∧
    bdRecIns.to_sv_interval.map SVInterval.endPos = some 62767 :=
  ⟨rfl, (bd_to_sv_interval_del_ins.1 bdRecDel rfl).2.1, rfl,
    (bd_to_sv_interval_del_ins.2 bdRecIns rfl).2.1⟩

/-- C4: Pindel `to_sv_interval` yields, for insertion subtypes I and LI, the
point interval at start_pos with wiggle 100 and the stored derived genotype;
for the non-insertion subtypes D, INV and TD it yields the span
[start_pos, end_pos] with no cipos, no wiggle and no genotype. -/
theorem pindel_to_sv_interval_shape :
    (∀ r : PindelRecordData, (r.sv_type = "I" ∨ r.sv_type = "LI") →
       r.to_sv_interval.map SVInterval.start = Except.ok r.start_pos ∧
       r.to_sv_interval.map SVInterval.endPos = Except.ok r.start_pos ∧
       r.to_sv_interval.map SVInterval.wiggle = Except.ok (some 100) ∧
       r.to_sv_interval.map SVInterval.gt = Except.ok (some r.gt)) ∧
    (∀ r : PindelRecordData,
       (r.sv_type = "D" ∨ r.sv_type = "INV" ∨ r.sv_type = "TD") →
       r.to_sv_interval.map SVInterval.start = Except.ok r.start_pos ∧
       r.to_sv_interval.map SVInterval.endPos = Except.ok r.end_pos ∧
       r.to_sv_interval.map SVInterval.cipos = Except.ok none ∧
       r.to_sv_interval.map SVInterval.wiggle = Except.ok none ∧
       r.to_sv_interval.map SVInterval.gt = Except.ok none) := by
  constructor
  · intro r h
    rcases h with h | h <;>
      simp [PindelRecordData.to_sv_interval, h, dictGet, PINDEL_TO_SV_TYPE,
        Bind.bind, Except.bind, Except.map, pureE]
  · intro r h
    rcases h with h | h | h <;>
      simp [PindelRecordData.to_sv_interval, h, dictGet, PINDEL_TO_SV_TYPE,
        Bind.bind, Except.bind, Except.map, pureE]

/-- C4 witness: the two implications applied at the concrete insertion
record `recI` and deletion record `recD`. -/
theorem pindel_to_sv_interval_shape_witness :
    (recI.sv_type = "I" ∨ recI.sv_type = "LI") ∧
    recI.to_sv_interval.map SVInterval.wiggle = Except.ok (some 100) ∧
    (recD.sv_type = "D" ∨ recD.sv_type = "INV" ∨ recD.sv_type = "TD") ∧
    recD.to_sv_interval.map SVInterval.wiggle = Except.ok none :=
  ⟨Or.inl rfl, (pindel_to_sv_interval_shape.1 recI (Or.inl rfl)).2.2.1,
    Or.inl rfl, (pindel_to_sv_interval_shape.2 recD (Or.inl rfl)).2.2.2.1⟩

/-- C7: BreakDancer `to_sv_interval` returns no interval exactly when the
record's sv_type is outside the convertible set, i.e. neither DEL nor INS,
and that outcome is the value None, not a raised error. -/
theorem bd_to_sv_interval_none_iff :
    ∀ r : BreakDancerRecord,
      r.to_sv_interval = none ↔ (r.sv_type ≠ "DEL" ∧ r.sv_type ≠ "INS") := by
  intro r
  unfold BreakDancerRecord.to_sv_interval
  by_cases h : r.sv_type ∈ valid_breakdancer_svs
  · rw [if_neg (not_not_intro h)]
    have h' : r.sv_type = "DEL" ∨ r.sv_type = "INS" := by
      simpa [valid_breakdancer_svs] using h
    rcases h' with h' | h'
    · rw [if_pos h']
      simp [h']
    · rw [if_neg (by rw [h']; decide)]
      simp [h']
  · rw [if_pos h]
    have h' : ¬(r.sv_type = "DEL" ∨ r.sv_type = "INS") := by
      simpa [valid_breakdancer_svs] using h
    simp only [not_or] at h'
    simpa using h'

/-- C7 witness: applied at the concrete inversion record. -/
theorem bd_to_sv_interval_none_iff_witness :
    bdRecInv.to_sv_interval = none :=
  (bd_to_sv_interval_none_iff bdRecInv).mpr ⟨by decide, by decide⟩

/-- C2: genotype derivation is the stated function of the support counts.
For subtypes I and LI it is heterozygous exactly when
up_read_supp + down_read_supp > 0 and homozygous-reference otherwise.  For
every other subtype, with event = uniq_read_supp and
ref = up_uniq_read_supp + down_uniq_read_supp: coverage below 10 gives
homozygous-reference; otherwise fraction < 1/5 gives homozygous-reference,
1/5 ≤ fraction < 4/5 gives heterozygous (fraction exactly 1/5 included), and
fraction ≥ 4/5 gives homozygous-variant (fraction exactly 4/5 included). -/
theorem derive_genotype_matches_claim :
    (∀ r : PindelRecordData, (r.sv_type = "I" ∨ r.sv_type = "LI") →
        derive_genotype r =
          Except.ok
            (if 0 < r.up_read_supp + r.down_read_supp then GT_HET
             else GT_REF)) ∧
    (∀ (r : PindelRecordData) (e u d : Int),
        r.sv_type ≠ "I" → r.sv_type ≠ "LI" →
        r.uniq_read_supp = some e → r.up_uniq_read_supp = some u →
        r.down_uniq_read_supp = some d →
        ((e + (u + d) < 10 → derive_genotype r = Except.ok GT_REF) ∧
         (10 ≤ e + (u + d) →
           (((e : ℚ) / ((e : ℚ) + ((u : ℚ) + (d : ℚ))) < 1 / 5 →
               derive_genotype r = Except.ok GT_REF) ∧
            (1 / 5 ≤ (e : ℚ) / ((e : ℚ) + ((u : ℚ) + (d : ℚ))) →
             (e : ℚ) / ((e : ℚ) + ((u : ℚ) + (d : ℚ))) < 4 / 5 →
               derive_genotype r = Except.ok GT_HET) ∧
            (4 / 5 ≤ (e : ℚ) / ((e : ℚ) + ((u : ℚ) + (d : ℚ))) →
               derive_genotype r = Except.ok GT_HOM))))) := by
  constructor
  · intro r h
    have h' : r.sv_type = "LI" ∨ r.sv_type = "I" := h.symm
    rw [derive_genotype, if_pos h']
  · intro r e u d hI hLI he hu hd
    have hcond : ¬(r.sv_type = "LI" ∨ r.sv_type = "I") := by
      intro hc
      rcases hc with hc | hc
      · exact hLI hc
      · exact hI hc
    have h02 : het_cutoff = 1 / 5 := by norm_num [het_cutoff]
    have h08 : hom_cutoff = 4 / 5 := by norm_num [hom_cutoff]
    have hfrac : ((e : ℚ) + ((u + d : Int) : ℚ)) =
        ((e : ℚ) + ((u : ℚ) + (d : ℚ))) := by push_cast; ring
    rw [derive_genotype, if_neg hcond]
    simp only [he, hu, hd, pyAttr, Bind.bind, Except.bind, min_coverage,
      h02, h08, hfrac, pureE]
    constructor
    · intro hlt
      rw [if_pos hlt]
    · intro hge
      rw [if_neg (not_lt.mpr hge)]
      refine ⟨fun hr => ?_, fun hr1 hr2 => ?_, fun hr => ?_⟩
      · rw [if_pos hr]
      · rw [if_neg (not_lt.mpr hr1), if_pos hr2]
      · rw [if_neg (not_lt.mpr (le_trans (by norm_num) hr)),
          if_neg (not_lt.mpr hr)]

/-- C2 witness: the non-insertion branch applied at a "D" record with 2
unique event reads against 8 unique reference reads (coverage exactly 10,
fraction exactly 1/5, giving heterozygous), and the insertion branch at the
"I" record `recI` with positive support. -/
theorem derive_genotype_matches_claim_witness :
    derive_genotype recW = Except.ok GT_HET ∧
    derive_genotype recI = Except.ok GT_HET :=
  ⟨((derive_genotype_matches_claim.2 recW 2 2 6 (by decide) (by decide)
      rfl rfl rfl).2 (by decide)).2.1 (by norm_num) (by norm_num),
   (derive_genotype_matches_claim.1 recI (Or.inl rfl)).trans (by rfl)⟩

/-- C6: every successfully parsed non-LI record has
homlen = bp_range.upper - end_pos and homseq fetched from the reference
accessor over the span (end_pos - 1, bp_range.upper - 1); every LI record
has homlen 0, homseq "", bp_range = (start_pos, end_pos) verbatim, and none
of the NT or support-block attributes assigned. -/
theorem pindel_homology_fields :
    ∀ (fields : List String) (fetch : String → Int → Int → String)
      (r : PindelRecordData),
      parsePindelRecord fields fetch = Except.ok r →
      ((r.sv_type ≠ "LI" →
          r.homlen = r.bp_range.2 - r.end_pos ∧
          r.homseq = fetch r.chromosome (r.end_pos - 1) (r.bp_range.2 - 1)) ∧
       (r.sv_type = "LI" →
          r.homlen = 0 ∧ r.homseq = "" ∧
          r.bp_range = (r.start_pos, r.end_pos) ∧
          r.num_nt_added = none ∧ r.nt_added = none ∧ r.read_supp = none ∧
          r.uniq_read_supp = none ∧ r.up_uniq_read_supp = none ∧
          r.down_uniq_read_supp = none ∧ r.simple_score = none ∧
          r.sum_mapq = none ∧ r.num_sample = none ∧
          r.num_sample_supp = none ∧ r.num_sample_uniq_supp = none)) := by
  intro fields fetch r h
  simp only [parsePindelRecord, bindE_ok] at h
  obtain ⟨st, hst, h⟩ := h
  by_cases hLI : st = "LI"
  · rw [if_neg (not_not_intro hLI)] at h
    simp only [bindE_ok, pureE, Except.ok.injEq] at h
    repeat obtain ⟨_, -, h⟩ := h
    refine ⟨fun hne => absurd hLI hne, fun _ => ?_⟩
    exact ⟨rfl, rfl, rfl, rfl, rfl, rfl, rfl, rfl, rfl, rfl, rfl, rfl,
      rfl, rfl⟩
  · rw [if_pos hLI] at h
    simp only [bindE_ok, pureE, Except.ok.injEq] at h
    repeat obtain ⟨_, -, h⟩ := h
    exact ⟨fun _ => ⟨rfl, rfl⟩, fun hEq => absurd hEq hLI⟩

/-- C6 witness: the two implications applied at a parsed "D" line (31
fields) and a parsed LI line, under the constant accessor `fetchC`. -/
theorem pindel_homology_fields_witness :
    parsePindelRecord pdFieldsD fetchC = Except.ok pdRecD ∧
    pdRecD.homlen = pdRecD.bp_range.2 - pdRecD.end_pos ∧
    pdRecD.homseq =
      fetchC pdRecD.chromosome (pdRecD.end_pos - 1) (pdRecD.bp_range.2 - 1) ∧
    parsePindelRecord liFields fetchC = Except.ok liRec ∧
    liRec.homlen = 0 ∧ liRec.homseq = "" ∧
    liRec.bp_range = (liRec.start_pos, liRec.end_pos) ∧
    liRec.num_nt_added = none := by
  have hD : parsePindelRecord pdFieldsD fetchC = Except.ok pdRecD := by decide
  have hLI : parsePindelRecord liFields fetchC = Except.ok liRec := by decide
  have h1 := (pindel_homology_fields pdFieldsD fetchC pdRecD hD).1
    (by decide)
  have h2 := (pindel_homology_fields liFields fetchC liRec hLI).2 rfl
  exact ⟨hD, h1.1, h1.2, hLI, h2.1, h2.2.1, h2.2.2.1, h2.2.2.2.1⟩

/-- C8: the claim says a line with fewer than 11 fields fails with a
FormatError identifying the missing column index.  The code always fails on
such lines (never a partial record), and the error names the first missing
column index — which equals the field count, since columns are consumed in
order — whenever every numeric field that is present converts; but when an
earlier present numeric field is malformed the failure is that field's
conversion error instead, which names no column.  Amended accordingly. -/
theorem bd_short_line_amended :
    ∀ fields : List String, fields.length < 11 →
      ((∃ e, parseBreakDancerRecord fields = Except.error e) ∧
       (bdNumericFieldsOk fields = true →
          parseBreakDancerRecord fields =
            Except.error (PyErr.indexError fields.length))) := by
  intro fields h
  rcases Nat.lt_or_ge fields.length 1 with hb | hb0
  · have hg : getField fields 0 = Except.error (PyErr.indexError 0) :=
      getField_ge (by omega)
    have hn : fields.length = 0 := by omega
    refine ⟨⟨PyErr.indexError 0, ?_⟩, fun _ => ?_⟩
    · simp [parseBreakDancerRecord, hg, Bind.bind, Except.bind]
    · rw [hn]
      simp [parseBreakDancerRecord, hg, Bind.bind, Except.bind]
  obtain ⟨s0, hs0⟩ := getField_lt (show 0 < fields.length by omega)
  rcases Nat.lt_or_ge fields.length 2 with hb | hb1
  · have hg : getField fields 1 = Except.error (PyErr.indexError 1) :=
      getField_ge (by omega)
    have hn : fields.length = 1 := by omega
    refine ⟨⟨PyErr.indexError 1, ?_⟩, fun _ => ?_⟩
    · simp [parseBreakDancerRecord, hs0, hg, Bind.bind, Except.bind]
    · rw [hn]
      simp [parseBreakDancerRecord, hs0, hg, Bind.bind, Except.bind]
  obtain ⟨s1, hs1⟩ := getField_lt (show 1 < fields.length by omega)
  rcases hq1 : pyInt s1 with e1 | v1
  · refine ⟨⟨e1, ?_⟩, fun hwf => ?_⟩
    · simp [parseBreakDancerRecord, hs0, hs1, hq1, Bind.bind, Except.bind]
    · obtain ⟨v, hv⟩ := bdWf_int 1 (by decide) hwf (getField_ok_get hs1)
      rw [hq1] at hv
      simp at hv
  rcases Nat.lt_or_ge fields.length 3 with hb | hb2
  · have hg : getField fields 2 = Except.error (PyErr.indexError 2) :=
      getField_ge (by omega)
    have hn : fields.length = 2 := by omega
    refine ⟨⟨PyErr.indexError 2, ?_⟩, fun _ => ?_⟩
    · simp [parseBreakDancerRecord, hs0, hs1, hq1, hg, Bind.bind, Except.bind]
    · rw [hn]
      simp [parseBreakDancerRecord, hs0, hs1, hq1, hg, Bind.bind, Except.bind]
  obtain ⟨s2, hs2⟩ := getField_lt (show 2 < fields.length by omega)
  rcases Nat.lt_or_ge fields.length 4 with hb | hb3
  · have hg : getField fields 3 = Except.error (PyErr.indexError 3) :=
      getField_ge (by omega)
    have hn : fields.length = 3 := by omega
    refine ⟨⟨PyErr.indexError 3, ?_⟩, fun _ => ?_⟩
    · simp [parseBreakDancerRecord, hs0, hs1, hq1, hs2, hg, Bind.bind,
        Except.bind]
    · rw [hn]
      simp [parseBreakDancerRecord, hs0, hs1, hq1, hs2, hg, Bind.bind,
        Except.bind]
  obtain ⟨s3, hs3⟩ := getField_lt (show 3 < fields.length by omega)
  rcases Nat.lt_or_ge fields.length 5 with hb | hb4
  · have hg : getField fields 4 = Except.error (PyErr.indexError 4) :=
      getField_ge (by omega)
    have hn : fields.length = 4 := by omega
    refine ⟨⟨PyErr.indexError 4, ?_⟩, fun _ => ?_⟩
    · simp [parseBreakDancerRecord, hs0, hs1, hq1, hs2, hs3, hg, Bind.bind,
        Except.bind]
    · rw [hn]
      simp [parseBreakDancerRecord, hs0, hs1, hq1, hs2, hs3, hg, Bind.bind,
        Except.bind]
  obtain ⟨s4, hs4⟩ := getField_lt (show 4 < fields.length by omega)
  rcases hq4 : pyInt s4 with e4 | v4
  · refine ⟨⟨e4, ?_⟩, fun hwf => ?_⟩
    · simp [parseBreakDancerRecord, hs0, hs1, hq1, hs2, hs3, hs4, hq4,
        Bind.bind, Except.bind]
    · obtain ⟨v, hv⟩ := bdWf_int 4 (by decide) hwf (getField_ok_get hs4)
      rw [hq4] at hv
      simp at hv
  rcases Nat.lt_or_ge fields.length 6 with hb | hb5
  · have hg : getField fields 5 = Except.error (PyErr.indexError 5) :=
      getField_ge (by omega)
    have hn : fields.length = 5 := by omega
    refine ⟨⟨PyErr.indexError 5, ?_⟩, fun _ => ?_⟩
    · simp [parseBreakDancerRecord, hs0, hs1, hq1, hs2, hs3, hs4, hq4, hg,
        Bind.bind, Except.bind]
    · rw [hn]
      simp [parseBreakDancerRecord, hs0, hs1, hq1, hs2, hs3, hs4, hq4, hg,
        Bind.bind, Except.bind]
  obtain ⟨s5, hs5⟩ := getField_lt (show 5 < fields.length by omega)
  rcases Nat.lt_or_ge fields.length 7 with hb | hb6
  · have hg : getField fields 6 = Except.error (PyErr.indexError 6) :=
      getField_ge (by omega)
    have hn : fields.length = 6 := by omega
    refine ⟨⟨PyErr.indexError 6, ?_⟩, fun _ => ?_⟩
    · simp [parseBreakDancerRecord, hs0, hs1, hq1, hs2, hs3, hs4, hq4, hs5,
        hg, Bind.bind, Except.bind]
    · rw [hn]
      simp [parseBreakDancerRecord, hs0, hs1, hq1, hs2, hs3, hs4, hq4, hs5,
        hg, Bind.bind, Except.bind]
  obtain ⟨s6, hs6⟩ := getField_lt (show 6 < fields.length by omega)
  rcases Nat.lt_or_ge fields.length 8 with hb | hb7
  · have hg : getField fields 7 = Except.error (PyErr.indexError 7) :=
      getField_ge (by omega)
    have hn : fields.length = 7 := by omega
    refine ⟨⟨PyErr.indexError 7, ?_⟩, fun _ => ?_⟩
    · simp [parseBreakDancerRecord, hs0, hs1, hq1, hs2, hs3, hs4, hq4, hs5,
        hs6, hg, Bind.bind, Except.bind]
    · rw [hn]
      simp [parseBreakDancerRecord, hs0, hs1, hq1, hs2, hs3, hs4, hq4, hs5,
        hs6, hg, Bind.bind, Except.bind]
  obtain ⟨s7, hs7⟩ := getField_lt (show 7 < fields.length by omega)
  rcases hq7 : pyInt s7 with e7 | v7
  · refine ⟨⟨e7, ?_⟩, fun hwf => ?_⟩
    · simp [parseBreakDancerRecord, hs0, hs1, hq1, hs2, hs3, hs4, hq4, hs5,
        hs6, hs7, hq7, Bind.bind, Except.bind]
    · obtain ⟨v, hv⟩ := bdWf_int 7 (by decide) hwf (getField_ok_get hs7)
      rw [hq7] at hv
      simp at hv
  rcases Nat.lt_or_ge fields.length 9 with hb | hb8
  · have hg : getField fields 8 = Except.error (PyErr.indexError 8) :=
      getField_ge (by omega)
    have hn : fields.length = 8 := by omega
    refine ⟨⟨PyErr.indexError 8, ?_⟩, fun _ => ?_⟩
    · simp [parseBreakDancerRecord, hs0, hs1, hq1, hs2, hs3, hs4, hq4, hs5,
        hs6, hs7, hq7, hg, Bind.bind, Except.bind]
    · rw [hn]
      simp [parseBreakDancerRecord, hs0, hs1, hq1, hs2, hs3, hs4, hq4, hs5,
        hs6, hs7, hq7, hg, Bind.bind, Except.bind]
  obtain ⟨s8, hs8⟩ := getField_lt (show 8 < fields.length by omega)
  rcases hq8 : pyFloat s8 with e8 | v8
  · refine ⟨⟨e8, ?_⟩, fun hwf => ?_⟩
    · simp [parseBreakDancerRecord, hs0, hs1, hq1, hs2, hs3, hs4, hq4, hs5,
        hs6, hs7, hq7, hs8, hq8, Bind.bind, Except.bind]
    · obtain ⟨v, hv⟩ := bdWf_float hwf (getField_ok_get hs8)
      rw [hq8] at hv
      simp at hv
  rcases Nat.lt_or_ge fields.length 10 with hb | hb9
  · have hg : getField fields 9 = Except.error (PyErr.indexError 9) :=
      getField_ge (by omega)
    have hn : fields.length = 9 := by omega
    refine ⟨⟨PyErr.indexError 9, ?_⟩, fun _ => ?_⟩
    · simp [parseBreakDancerRecord, hs0, hs1, hq1, hs2, hs3, hs4, hq4, hs5,
        hs6, hs7, hq7, hs8, hq8, hg, Bind.bind, Except.bind]
    · rw [hn]
      simp [parseBreakDancerRecord, hs0, hs1, hq1, hs2, hs3, hs4, hq4, hs5,
        hs6, hs7, hq7, hs8, hq8, hg, Bind.bind, Except.bind]
  obtain ⟨s9, hs9⟩ := getField_lt (show 9 < fields.length by omega)
  rcases hq9 : pyInt s9 with e9 | v9
  · refine ⟨⟨e9, ?_⟩, fun hwf => ?_⟩
    · simp [parseBreakDancerRecord, hs0, hs1, hq1, hs2, hs3, hs4, hq4, hs5,
        hs6, hs7, hq7, hs8, hq8, hs9, hq9, Bind.bind, Except.bind]
    · obtain ⟨v, hv⟩ := bdWf_int 9 (by decide) hwf (getField_ok_get hs9)
      rw [hq9] at hv
      simp at hv
  have hg : getField fields 10 = Except.error (PyErr.indexError 10) :=
    getField_ge (by omega)
  have hn : fields.length = 10 := by omega
  refine ⟨⟨PyErr.indexError 10, ?_⟩, fun _ => ?_⟩
  · simp [parseBreakDancerRecord, hs0, hs1, hq1, hs2, hs3, hs4, hq4, hs5,
      hs6, hs7, hq7, hs8, hq8, hs9, hq9, hg, Bind.bind, Except.bind]
  · rw [hn]
    simp [parseBreakDancerRecord, hs0, hs1, hq1, hs2, hs3, hs4, hq4, hs5,
      hs6, hs7, hq7, hs8, hq8, hs9, hq9, hg, Bind.bind, Except.bind]

/-- C8 counterexample: the two-field line with fields "1" and "x" (fewer
than 11 columns) fails, but with the numeric-conversion error for the
malformed present field "x", not an error identifying a missing column
index, so the claim as universally stated is false. -/
theorem bd_short_line_counterexample :
    (["1", "x"] : List String).length < 11 ∧
    parseBreakDancerRecord ["1", "x"] =
      Except.error (PyErr.valueError "x") ∧
    errIdentifiesMissingColumn (parseBreakDancerRecord ["1", "x"]) = false := by
  refine ⟨by decide, by decide, by decide⟩

/-- C8 witness: the amended statement applied at the two-field line "1 2",
whose present numeric field is well formed: the parse fails with the error
naming the first missing column, index 2 = the field count. -/
theorem bd_short_line_amended_witness :
    (["1", "2"] : List String).length < 11 ∧
    bdNumericFieldsOk ["1", "2"] = true ∧
    parseBreakDancerRecord ["1", "2"] =
      Except.error (PyErr.indexError 2) :=
  ⟨by decide, by decide,
    (bd_short_line_amended ["1", "2"] (by decide)).2 (by decide)⟩

/-- C9 counterexample: a well-formed 31-field Pindel "D" line whose
breakpoints are out of order (start 10, end 5) parses, and `to_sv_interval`
hands the endpoints through unchecked, producing an interval with
end < start — so the claim that every produced interval satisfies
start ≤ end is false. -/
theorem interval_invariant_counterexample :
    parsePindelRecord badFields (fun _ _ _ => "") = Except.ok badRecord ∧
    badRecord.to_sv_interval = Except.ok badInterval ∧
    badInterval.endPos < badInterval.start :=
  ⟨by decide, by decide, by decide⟩

/-- C9 amended: BreakDancer intervals always satisfy start ≤ end; Pindel
intervals satisfy start ≤ end provided the record's start_pos ≤ end_pos
(which `to_sv_interval` does not check); insertion intervals always satisfy
start = end; and the endpoints are exactly the record's anchor coordinates
(pos1 and pos1 + |sv_len| for BreakDancer, start_pos and end_pos for
Pindel), so cipos/wiggle never widen start/end. -/
theorem interval_invariant_amended :
    (∀ (b : BreakDancerRecord) (iv : SVInterval),
        b.to_sv_interval = some iv →
        iv.start ≤ iv.endPos ∧
        iv.start = b.pos1 ∧
        (iv.sv_type = "INS" → iv.start = iv.endPos) ∧
        (iv.sv_type ≠ "INS" → iv.endPos = b.pos1 + |b.sv_len|)) ∧
    (∀ (p : PindelRecordData) (iv : SVInterval),
        p.to_sv_interval = Except.ok iv →
        iv.start = p.start_pos ∧
        (p.start_pos ≤ p.end_pos → iv.start ≤ iv.endPos) ∧
        (iv.sv_type = "INS" → iv.start = iv.endPos) ∧
        (iv.sv_type ≠ "INS" → iv.endPos = p.end_pos)) := by
  constructor
  · intro b iv h
    unfold BreakDancerRecord.to_sv_interval at h
    split_ifs at h with h1 h2
    · obtain rfl := Option.some.inj h
      refine ⟨?_, rfl, ?_, fun _ => rfl⟩
      · show b.pos1 ≤ b.pos1 + |b.sv_len|
        exact le_add_of_nonneg_right (abs_nonneg b.sv_len)
      · intro hins
        exact absurd (h2.symm.trans hins) (by decide)
    · obtain rfl := Option.some.inj h
      refine ⟨?_, rfl, fun _ => rfl, fun hne => absurd rfl hne⟩
      show b.pos1 ≤ b.pos1
      exact le_refl b.pos1
  · intro p iv h
    simp only [PindelRecordData.to_sv_interval, bindE_ok, pureE] at h
    obtain ⟨st, -, h⟩ := h
    split_ifs at h with hst
    · obtain rfl := Except.ok.inj h
      exact ⟨rfl, fun hle => hle, fun hins => absurd hins hst,
        fun _ => rfl⟩
    · obtain rfl := Except.ok.inj h
      exact ⟨rfl, fun _ => le_refl _, fun _ => rfl,
        fun hne => absurd (not_not.mp hst) hne⟩

/-- C9 witness: the amended invariant applied at the BreakDancer deletion
example and the Pindel insertion record. -/
theorem interval_invariant_amended_witness :
    bdRecDel.to_sv_interval = some bdDelIv ∧
    bdDelIv.start ≤ bdDelIv.endPos ∧
    recI.to_sv_interval = Except.ok recIIv ∧
    recI.start_pos ≤ recI.end_pos ∧
    recIIv.start = recIIv.endPos := by
  have h1 := interval_invariant_amended.1 bdRecDel bdDelIv (by decide)
  have h2 := interval_invariant_amended.2 recI recIIv (by decide)
  exact ⟨by decide, h1.1, by decide, by decide, h2.2.2.1 (by decide)⟩

/-- C10: convert_pindel_to_vcf constructs `PindelReader(file_name)` with a
single argument although the constructor's signature is
(file_name, reference_handle), so for every input the call raises TypeError
before any record is pulled; the error result carries no records. -/
theorem convert_pindel_to_vcf_raises :
    ∀ (file_name sample out_vcf : String) (lines : List String),
      convert_pindel_to_vcf file_name sample out_vcf lines =
        Except.error
          (PyErr.typeError "pindelreader init takes exactly 3 arguments") := by
  intro file_name sample out_vcf lines
  rfl

end MetaSV
